import Mathlib

/-!
Verification development for the biorhythm dashboard's data-access layer and
series-reconstruction logic.

Shallow embedding of:
  * `PyBiorythmAPIClient._make_request`  (src/dashboard/services.py, lines 37-47)
  * `CachedAPIClient` read/write paths     (src/dashboard/services.py, lines 133-216)
  * `create_biorhythm_line_chart`, `create_cycle_phase_chart`,
    `create_correlation_chart`            (src/dashboard/plotly_utils.py)

Modelling conventions:
  * Python objects produced by `response.json()` are modelled by `PyVal`;
    Python `None` is `PyVal.null`, so an "absent" result is `PyVal.null`.
    Python truthiness is the function `truthy`.
  * Calendar dates are integers (days since a fixed epoch); date subtraction
    in whole days is integer subtraction.  2024-01-01 is day 19723.
  * Floating-point sines are modelled by exact real `Real.sin`.
  * The Django cache is a function from string keys to an optional
    (value, absolute-expiry) pair; `cache.get` returns `PyVal.null` for a
    missing or expired key, mirroring Django's default.
  * The HTTP transport is modelled by an `UpstreamOutcome` describing the
    final response (after redirect resolution) or the raised transport error.
    Per the `requests` library (>= 2.27), `Response.raise_for_status` raises
    exactly for statuses in [400, 600), and `Response.json` raises
    `requests.exceptions.JSONDecodeError` (a `RequestException` subclass) on
    an unparseable body.
-/

namespace BiorhythmDash

/-- Python values as returned by `response.json()`; `null` is Python `None`. -/
inductive PyVal where
  | obj (fields : List (String × PyVal))
  | arr (items : List PyVal)
  | str (s : String)
  | num (q : ℚ)
  | boolean (b : Bool)
  | null

/-- Python truthiness: empty containers, empty strings, zero, `False` and
`None` are falsy; everything else is truthy. -/
def truthy : PyVal → Bool
  | .obj fields => !fields.isEmpty
  | .arr items => !items.isEmpty
  | .str s => !s.isEmpty
  | .num q => decide (q ≠ 0)
  | .boolean b => b
  | .null => false

/-- Exceptions that `_make_request`'s try-block can raise; all of these are
subclasses of `requests.exceptions.RequestException` and hence caught. -/
inductive ReqExc where
  | connectionError
  | timeout
  | httpError (status : ℕ)
  | jsonDecodeError
deriving DecidableEq

/-- Outcome of one HTTP exchange: either the transport fails (connection
error / timeout), or a final response arrives with a status code and a body
that is either parseable JSON (`some v`) or malformed (`none`). -/
inductive UpstreamOutcome where
  | transportError
  | timeout
  | response (status : ℕ) (body : Option PyVal)

/-- One record written through `logger.error`. -/
structure LogEntry where
  method : String
  url : String
  message : String
deriving DecidableEq

/-- Exception rendering used in the log line. -/
def excMsg : ReqExc → String
  | .connectionError => "ConnectionError"
  | .timeout => "Timeout"
  | .httpError s => "HTTPError " ++ toString s
  | .jsonDecodeError => "JSONDecodeError"

/-- The body of `_make_request`'s try-block:
`response = session.request(...)` / `response.raise_for_status()` /
`return response.json()`, with each raise made explicit.
`raise_for_status` raises exactly for statuses in [400, 600). -/
def rawRequest : UpstreamOutcome → Except ReqExc PyVal
  | .transportError => .error .connectionError
  | .timeout => .error .timeout
  | .response status body =>
    if 400 ≤ status ∧ status < 600 then .error (.httpError status)
    else
      match body with
      | none => .error .jsonDecodeError
      | some v => .ok v

/-- `PyBiorythmAPIClient._make_request` (services.py lines 37-47): the
try/except collapses every `RequestException` to `None` plus one error log
naming the method and URL; a successfully parsed body is returned as-is. -/
def makeRequest (method url : String) (o : UpstreamOutcome) :
    PyVal × List LogEntry :=
  match rawRequest o with
  | .ok v => (v, [])
  | .error e =>
    (.null, [⟨method, url, "API request failed: " ++ excMsg e⟩])

/-- Requests the cached client can issue to the remote API. -/
inductive Request where
  | people
  | person (pid : ℕ)
  | personStats (pid : ℕ)
  | biorhythmData (pid : ℕ) (startDate endDate : Option ℤ) (limit : Option ℕ)
  | calculate (pid : ℕ) (days : ℕ) (targetDate : Option ℤ) (notes : String)
deriving DecidableEq

/-- The Django cache store: key to optional (value, absolute expiry time). -/
def CacheState : Type := String → Option (PyVal × ℕ)

/-- `cache.get(key)`: the stored value when present and unexpired, otherwise
the default `None`. -/
def cacheGet (st : CacheState) (now : ℕ) (key : String) : PyVal :=
  match st key with
  | some (v, exp) => if now < exp then v else .null
  | none => .null

/-- `cache.set(key, value, ttl)`: stores the value with absolute expiry. -/
def cacheSet (st : CacheState) (key : String) (v : PyVal) (exp : ℕ) :
    CacheState :=
  fun k => if k = key then some (v, exp) else st k

/-- `cache.delete_many(keys)`. -/
def cacheDeleteMany (st : CacheState) (keys : List String) : CacheState :=
  fun k => if k ∈ keys then none else st k

/-- `CachedAPIClient.cache_timeout` (5 minutes). -/
def cacheTimeout : ℕ := 300

/-- `CachedAPIClient.get_people_cached` (services.py lines 145-154).
Returns the result, the new cache state, and the list of upstream requests
issued. -/
def getPeopleCached (u : Request → PyVal) (st : CacheState) (now : ℕ) :
    PyVal × CacheState × List Request :=
  let cached := cacheGet st now "api_people_list"
  if truthy cached then (cached, st, [])
  else
    let data := u .people
    if truthy data then
      (data, cacheSet st "api_people_list" data (now + cacheTimeout), [.people])
    else (data, st, [.people])

/-- `CachedAPIClient.get_person_cached` (services.py lines 156-166). -/
def getPersonCached (u : Request → PyVal) (st : CacheState) (now pid : ℕ) :
    PyVal × CacheState × List Request :=
  let key := "api_person_" ++ toString pid
  let cached := cacheGet st now key
  if truthy cached then (cached, st, [])
  else
    let data := u (.person pid)
    if truthy data then
      (data, cacheSet st key data (now + cacheTimeout), [.person pid])
    else (data, st, [.person pid])

/-- `CachedAPIClient.get_person_statistics_cached` (services.py lines
168-178); statistics are cached for twice the default timeout. -/
def getPersonStatisticsCached (u : Request → PyVal) (st : CacheState)
    (now pid : ℕ) : PyVal × CacheState × List Request :=
  let key := "api_person_stats_" ++ toString pid
  let cached := cacheGet st now key
  if truthy cached then (cached, st, [])
  else
    let data := u (.personStats pid)
    if truthy data then
      (data, cacheSet st key data (now + cacheTimeout * 2), [.personStats pid])
    else (data, st, [.personStats pid])

/-- `CachedAPIClient.invalidate_person_cache` (services.py lines 180-187). -/
def invalidatePersonCache (st : CacheState) (pid : ℕ) : CacheState :=
  cacheDeleteMany st
    ["api_person_" ++ toString pid, "api_person_stats_" ++ toString pid,
     "api_people_list"]

/-- `CachedAPIClient.get_biorhythm_data_fresh` (services.py lines 189-199):
a direct delegation to the remote client, no cache interaction. -/
def getBiorhythmDataFresh (u : Request → PyVal) (st : CacheState) (_now : ℕ)
    (pid : ℕ) (startDate endDate : Option ℤ) (limit : Option ℕ) :
    PyVal × CacheState × List Request :=
  (u (.biorhythmData pid startDate endDate limit), st,
   [.biorhythmData pid startDate endDate limit])

/-- `CachedAPIClient.calculate_biorhythm_and_invalidate` (services.py lines
201-212): run the remote calculation, and if the result is truthy delete the
person's cache keys before returning it. -/
def calculateBiorhythmAndInvalidate (u : Request → PyVal) (st : CacheState)
    (_now : ℕ) (pid : ℕ) (days : ℕ) (targetDate : Option ℤ) (notes : String) :
    PyVal × CacheState × List Request :=
  let result := u (.calculate pid days targetDate notes)
  if truthy result then
    (result, invalidatePersonCache st pid, [.calculate pid days targetDate notes])
  else (result, st, [.calculate pid days targetDate notes])

/-- One sparse biorhythm data point as delivered by the API (one row of
`biorhythm_data`): a calendar date (days since epoch), the integer
`days_alive`, three cycle amplitudes, and three critical-day flags. -/
structure Sample where
  date : ℤ
  days_alive : ℤ
  physical : ℚ
  emotional : ℚ
  intellectual : ℚ
  is_physical_critical : Bool
  is_emotional_critical : Bool
  is_intellectual_critical : Bool
deriving DecidableEq

/-- One point of the dense reconstructed series (the dict built in
`create_biorhythm_line_chart`'s loop: date plus three recomputed values). -/
structure DensePoint where
  date : ℤ
  physical : ℝ
  emotional : ℝ
  intellectual : ℝ

/-- Dates column of a sparse series. -/
def datesOf (data : List Sample) : List ℤ := data.map (·.date)

/-- `df['date'].min()` over a non-empty series (0 for the empty series,
which the chart functions never reach). -/
def minDate : List Sample → ℤ
  | [] => 0
  | f :: rest => (datesOf (f :: rest)).foldl min f.date

/-- `df['date'].max()` over a non-empty series. -/
def maxDate : List Sample → ℤ
  | [] => 0
  | f :: rest => (datesOf (f :: rest)).foldl max f.date

/-- One cycle amplitude: `math.sin(2 * math.pi * days_alive / period)`. -/
noncomputable def cycleValue (period : ℝ) (daysAlive : ℤ) : ℝ :=
  Real.sin (2 * Real.pi * daysAlive / period)

/-- The `days_alive` value the reconstruction loop computes for the k-th day
of the dense range: the anchor is `biorhythm_data[0]` (the first raw entry),
and `days_alive = first_days_alive + (d - first_date).days`. -/
def daysAliveAt (data : List Sample) (k : ℕ) : ℤ :=
  match data with
  | [] => 0
  | f :: rest => f.days_alive + (minDate (f :: rest) + k - f.date)

/-- The dense reconstruction loop of `create_biorhythm_line_chart`
(plotly_utils.py lines 41-73): one point per calendar day from the minimum
to the maximum source date inclusive, each with the three sine values
recomputed from the anchor's `days_alive`. -/
noncomputable def denseSeries : List Sample → List DensePoint
  | [] => []
  | f :: rest =>
    let dmin := minDate (f :: rest)
    let dmax := maxDate (f :: rest)
    (List.range ((dmax - dmin).toNat + 1)).map fun (k : ℕ) =>
      let d := dmin + (k : ℤ)
      let daysAlive := f.days_alive + (d - f.date)
      ⟨d, cycleValue 23 daysAlive, cycleValue 28 daysAlive,
       cycleValue 33 daysAlive⟩

/-- The critical-day filter of `create_biorhythm_line_chart` (plotly_utils.py
lines 115-119): a row is critical when any of its three flags is set. -/
def criticalFlag (s : Sample) : Bool :=
  s.is_physical_critical || s.is_emotional_critical || s.is_intellectual_critical

/-- Dates of the critical-day markers (plotly_utils.py lines 112-134): the
`date` column of the original sparse rows passing `criticalFlag`. -/
def criticalDates (data : List Sample) : List ℤ :=
  (data.filter criticalFlag).map (·.date)

/-- Result of `create_biorhythm_line_chart`, keeping the parts relevant to
the data semantics: the empty-chart message, or the dense series plus the
critical-day marker dates. -/
inductive LineChart where
  | empty (message : String)
  | chart (dense : List DensePoint) (criticalDays : List ℤ)

/-- `create_biorhythm_line_chart` (plotly_utils.py lines 18-163), with the
figure styling abstracted away: empty input yields the empty chart, else the
dense reconstruction and the sourced critical-day markers. -/
noncomputable def createBiorhythmLineChart (data : List Sample) : LineChart :=
  match data with
  | [] => .empty "No biorhythm data available"
  | f :: rest => .chart (denseSeries (f :: rest)) (criticalDates (f :: rest))

/-- The phase computation of `create_cycle_phase_chart` (plotly_utils.py
lines 299-323): `None` for empty input, else the three phases in degrees of
the LAST raw data point, `(days_alive % period) / period * 360`. -/
def cyclePhases (data : List Sample) : Option (ℚ × ℚ × ℚ) :=
  match data with
  | [] => none
  | f :: rest =>
    let d := ((f :: rest).getLast (List.cons_ne_nil f rest)).days_alive
    some (((d % 23 : ℤ) : ℚ) / 23 * 360,
          ((d % 28 : ℤ) : ℚ) / 28 * 360,
          ((d % 33 : ℤ) : ℚ) / 33 * 360)

/-- Column selector for the correlation matrix:
`cycles = ['physical', 'emotional', 'intellectual']`. -/
def colFun : Fin 3 → Sample → ℚ
  | 0 => (·.physical)
  | 1 => (·.emotional)
  | 2 => (·.intellectual)

/-- One cycle column of the DataFrame. -/
def colOf (data : List Sample) (i : Fin 3) : List ℚ := data.map (colFun i)

/-- Sample mean of a column (rational division; 0 for the empty column). -/
def sampleMean (xs : List ℚ) : ℚ := xs.sum / (xs.length : ℚ)

/-- Centered cross sum over two cycle columns:
`S_ij = Σ (x_i - mean_i)(x_j - mean_j)`.  Pearson's correlation is
`S_ij / sqrt(S_ii * S_jj)`. -/
def sCross (data : List Sample) (i j : Fin 3) : ℚ :=
  (data.map fun s =>
    (colFun i s - sampleMean (colOf data i)) *
    (colFun j s - sampleMean (colOf data j))).sum

/-- Sign of a rational. -/
def qsign (q : ℚ) : ℤ := if 0 < q then 1 else if q < 0 then -1 else 0

/-- A float that may be NaN, encoded as `Option`: `none` is NaN, and the
finite value `s * sqrt r` is encoded by its sign `s` and its square `r`
(this encoding is injective on the values Pearson's formula can produce and
keeps every definition computable). -/
abbrev FloatVal := Option (ℤ × ℚ)

/-- One entry of `df[cycles].corr()`: NaN exactly when a variance in the
denominator is zero (with exact arithmetic the numerator is then also zero
by Cauchy-Schwarz, giving 0/0); otherwise the finite Pearson value
`S_ij / sqrt(S_ii * S_jj)`, encoded by sign and square. -/
def pearsonNaN (data : List Sample) (i j : Fin 3) : FloatVal :=
  if sCross data i i = 0 ∨ sCross data j j = 0 then none
  else some (qsign (sCross data i j),
             (sCross data i j) ^ 2 / (sCross data i i * sCross data j j))

/-- `correlation_matrix.fillna(0)` applied to one entry: NaN becomes the
finite value 0 (encoded `(0, 0)`). -/
def fillnaZero (v : FloatVal) : FloatVal := some (v.getD (0, 0))

/-- One entry of the matrix actually handed to the heatmap
(plotly_utils.py lines 385-395). -/
def reportedCorr (data : List Sample) (i j : Fin 3) : FloatVal :=
  fillnaZero (pearsonNaN data i j)

/-- Result of `create_correlation_chart`, keeping the data semantics: the
empty-chart message, or the 3x3 matrix fed to the heatmap. -/
inductive CorrChart where
  | empty (message : String)
  | heatmap (z : List (List FloatVal))

/-- `create_correlation_chart` (plotly_utils.py lines 371-457), with the
figure styling abstracted away. -/
def createCorrelationChart (data : List Sample) : CorrChart :=
  match data with
  | [] => .empty "No biorhythm data available"
  | f :: rest =>
    let d := f :: rest
    .heatmap
      [[reportedCorr d 0 0, reportedCorr d 0 1, reportedCorr d 0 2],
       [reportedCorr d 1 0, reportedCorr d 1 1, reportedCorr d 1 2],
       [reportedCorr d 2 0, reportedCorr d 2 1, reportedCorr d 2 2]]

/-- Two-point example series from the specification: 2024-01-01 (day 19723)
with `days_alive` 10000 and 2024-01-05 (day 19727) with `days_alive` 10004. -/
def exTwo : List Sample :=
  [⟨19723, 10000, 0, 0, 0, false, false, false⟩,
   ⟨19727, 10004, 0, 0, 0, false, false, false⟩]

/-- Single-point example series: 2024-01-01 with `days_alive` 10000. -/
def exOne : List Sample :=
  [⟨19723, 10000, 0, 0, 0, false, false, false⟩]

/-- Example series with one critical sample (physical flag set on day 19723)
and one non-critical sample. -/
def exCrit : List Sample :=
  [⟨19723, 10000, 1/2, 1/3, 1/4, true, false, false⟩,
   ⟨19724, 10001, 0, 0, 0, false, false, false⟩]

/-- Replaces a sample's three cycle values by 0, keeping its date and
critical flags: used to show critical markers ignore the cycle values. -/
def zeroCycles : Sample → Sample :=
  fun s => ⟨s.date, s.days_alive, 0, 0, 0, s.is_physical_critical,
            s.is_emotional_critical, s.is_intellectual_critical⟩

/-- A cache store holding a truthy person entry under `api_person_3`,
expiring at time 100. -/
def wStore : CacheState :=
  fun k => if k = "api_person_3" then some (.obj [("name", .str "Ada")], 100)
           else none

/-- A cache store holding a FALSY (empty-dict) person entry under
`api_person_5`, expiring at time 10. -/
def cexStore : CacheState :=
  fun k => if k = "api_person_5" then some (.obj [], 10) else none

/-- A cache store holding truthy person statistics under
`api_person_stats_7`, expiring at time 1000. -/
def cexStore4 : CacheState :=
  fun k => if k = "api_person_stats_7"
           then some (.obj [("total", .num 5)], 1000) else none

/-- An upstream oracle whose calculation endpoint answers with an EMPTY
(hence falsy) JSON object, and whose statistics endpoint answers with fresh
data. -/
def cexOracle4 : Request → PyVal := fun r =>
  match r with
  | .calculate _ _ _ _ => .obj []
  | .personStats _ => .obj [("total", .num 99)]
  | _ => .null

/-- An upstream oracle whose calculation endpoint answers with a truthy
result. -/
def wOracle4 : Request → PyVal := fun r =>
  match r with
  | .calculate _ _ _ _ => .obj [("calculation_id", .num 42)]
  | .personStats _ => .obj [("total", .num 7)]
  | _ => .null

/-!  Helper lemmas about fold-based minima and maxima of date columns. -/

lemma foldl_min_le_init (l : List ℤ) (a : ℤ) : l.foldl min a ≤ a := by
  induction l generalizing a with
  | nil => simp
  | cons x t ih =>
    calc (x :: t).foldl min a = t.foldl min (min a x) := rfl
    _ ≤ min a x := ih _
    _ ≤ a := min_le_left _ _

lemma foldl_min_le_of_mem (l : List ℤ) (a x : ℤ) (hx : x ∈ l) :
    l.foldl min a ≤ x := by
  induction l generalizing a with
  | nil => cases hx
  | cons y t ih =>
    rcases List.mem_cons.mp hx with h | h
    · subst h
      calc (x :: t).foldl min a = t.foldl min (min a x) := rfl
      _ ≤ min a x := foldl_min_le_init _ _
      _ ≤ x := min_le_right _ _
    · exact ih _ h

lemma foldl_min_mem_or (l : List ℤ) (a : ℤ) :
    l.foldl min a = a ∨ l.foldl min a ∈ l := by
  induction l generalizing a with
  | nil => exact Or.inl rfl
  | cons y t ih =>
    rcases ih (min a y) with h | h
    · rcases min_choice a y with hm | hm
      · exact Or.inl (by rw [List.foldl_cons, h, hm])
      · exact Or.inr (by rw [List.foldl_cons, h, hm]; exact List.mem_cons_self _ _)
    · exact Or.inr (List.mem_cons_of_mem _ h)

lemma le_foldl_max_init (l : List ℤ) (a : ℤ) : a ≤ l.foldl max a := by
  induction l generalizing a with
  | nil => simp
  | cons x t ih =>
    calc a ≤ max a x := le_max_left _ _
    _ ≤ t.foldl max (max a x) := ih _
    _ = (x :: t).foldl max a := rfl

lemma le_foldl_max_of_mem (l : List ℤ) (a x : ℤ) (hx : x ∈ l) :
    x ≤ l.foldl max a := by
  induction l generalizing a with
  | nil => cases hx
  | cons y t ih =>
    rcases List.mem_cons.mp hx with h | h
    · subst h
      calc x ≤ max a x := le_max_right _ _
      _ ≤ t.foldl max (max a x) := le_foldl_max_init _ _
      _ = (x :: t).foldl max a := rfl
    · exact ih _ h

lemma foldl_max_mem_or (l : List ℤ) (a : ℤ) :
    l.foldl max a = a ∨ l.foldl max a ∈ l := by
  induction l generalizing a with
  | nil => exact Or.inl rfl
  | cons y t ih =>
    rcases ih (max a y) with h | h
    · rcases max_choice a y with hm | hm
      · exact Or.inl (by rw [List.foldl_cons, h, hm])
      · exact Or.inr (by rw [List.foldl_cons, h, hm]; exact List.mem_cons_self _ _)
    · exact Or.inr (List.mem_cons_of_mem _ h)

/-- `cyclePhases` of a non-empty series, spelled via `getLast`. -/
lemma cyclePhases_eq_getLast (data : List Sample) (h : data ≠ []) :
    cyclePhases data = some
      ((((data.getLast h).days_alive % 23 : ℤ) : ℚ) / 23 * 360,
       (((data.getLast h).days_alive % 28 : ℤ) : ℚ) / 28 * 360,
       (((data.getLast h).days_alive % 33 : ℤ) : ℚ) / 33 * 360) := by
  obtain ⟨f, t, rfl⟩ := List.exists_cons_of_ne_nil h
  rfl

/-- `criticalDates` unfolded one sample at a time. -/
lemma criticalDates_cons (x : Sample) (l : List Sample) :
    criticalDates (x :: l) =
      if criticalFlag x then x.date :: criticalDates l else criticalDates l := by
  unfold criticalDates
  rw [List.filter_cons]
  split <;> simp

/-- With at most one sample, every centered cross sum vanishes. -/
lemma sCross_self_eq_zero (data : List Sample) (i : Fin 3)
    (h : data.length ≤ 1) : sCross data i i = 0 := by
  match data with
  | [] => simp [sCross]
  | [s] => simp [sCross, colOf, sampleMean]
  | a :: b :: t => simp at h

/-- Length of the dense reconstruction of a non-empty series. -/
lemma denseSeries_length (f : Sample) (rest : List Sample) :
    (denseSeries (f :: rest)).length
      = (maxDate (f :: rest) - minDate (f :: rest)).toNat + 1 := by
  simp only [denseSeries]
  rw [List.length_map, List.length_range]

/-!  Claim theorems. -/

/-- C2 (amended): `_make_request` never lets an exception out: every
exception its try-block can raise is a `RequestException`, absorbed to the
absent result and logged with the method and URL; transport errors,
timeouts, 4xx/5xx statuses and malformed bodies all yield the absent
result, while a parseable body on a response whose status is NOT in
[400, 600) is returned parsed (the original claim's "non-2xx" boundary is
refuted by `claim_c2_counterexample`). -/
theorem claim_c2_failures_absorbed (method url : String) (o : UpstreamOutcome) :
    (∀ e, rawRequest o = .error e →
      makeRequest method url o
        = (.null, [⟨method, url, "API request failed: " ++ excMsg e⟩]))
    ∧ (o = .transportError →
        (makeRequest method url o).1 = .null
        ∧ ∃ m, (makeRequest method url o).2 = [⟨method, url, m⟩])
    ∧ (o = .timeout →
        (makeRequest method url o).1 = .null
        ∧ ∃ m, (makeRequest method url o).2 = [⟨method, url, m⟩])
    ∧ (∀ s b, o = .response s b → 400 ≤ s → s < 600 →
        (makeRequest method url o).1 = .null
        ∧ ∃ m, (makeRequest method url o).2 = [⟨method, url, m⟩])
    ∧ (∀ s, o = .response s none → ¬(400 ≤ s ∧ s < 600) →
        (makeRequest method url o).1 = .null
        ∧ ∃ m, (makeRequest method url o).2 = [⟨method, url, m⟩])
    ∧ (∀ s v, o = .response s (some v) → ¬(400 ≤ s ∧ s < 600) →
        makeRequest method url o = (v, [])) := by
  refine ⟨?_, ?_, ?_, ?_, ?_, ?_⟩
  · intro e he
    simp [makeRequest, he]
  · rintro rfl
    exact ⟨rfl, "API request failed: " ++ excMsg .connectionError, rfl⟩
  · rintro rfl
    exact ⟨rfl, "API request failed: " ++ excMsg .timeout, rfl⟩
  · rintro s b rfl h4 h6
    have hc : 400 ≤ s ∧ s < 600 := ⟨h4, h6⟩
    constructor
    · simp [makeRequest, rawRequest, hc]
    · exact ⟨"API request failed: " ++ excMsg (.httpError s),
        by simp [makeRequest, rawRequest, hc]⟩
  · rintro s rfl hns
    constructor
    · simp [makeRequest, rawRequest, hns]
    · exact ⟨"API request failed: " ++ excMsg .jsonDecodeError,
        by simp [makeRequest, rawRequest, hns]⟩
  · rintro s v rfl hns
    simp [makeRequest, rawRequest, hns]

/-- C2 counterexample: a final 304 (non-2xx) response with a parseable JSON
body is returned parsed, not collapsed to the absent result, because
`raise_for_status` raises only for statuses in [400, 600). -/
theorem claim_c2_counterexample :
    makeRequest "GET" "http://api.example.com/api/v1/people/1/"
        (.response 304 (some (.obj [("id", .num 1)])))
      = (.obj [("id", .num 1)], [])
    ∧ ¬(200 ≤ 304 ∧ 304 < 300) := by
  exact ⟨rfl, by decide⟩

/-- C2 witness: a concrete 500 response is absorbed to the absent result and
logged with the method and URL. -/
theorem claim_c2_witness :
    rawRequest (.response 500 none) = .error (.httpError 500)
    ∧ (makeRequest "GET" "http://api.example.com/api/v1/people/"
          (.response 500 none)).1 = .null := by
  exact ⟨rfl, ((claim_c2_failures_absorbed "GET"
    "http://api.example.com/api/v1/people/" (.response 500 none)).2.2.2.1
    500 none rfl (by decide) (by decide)).1⟩

/-- C7: `get_biorhythm_data_fresh` delegates directly to the remote client:
for any prior cache state the cache is returned unchanged, exactly one
upstream fetch is issued, and its result is passed through verbatim. -/
theorem claim_c7_fresh_read_bypasses_cache (u : Request → PyVal)
    (st : CacheState) (now pid : ℕ) (sd ed : Option ℤ) (lim : Option ℕ) :
    (getBiorhythmDataFresh u st now pid sd ed lim).2.1 = st
    ∧ (getBiorhythmDataFresh u st now pid sd ed lim).2.2
        = [.biorhythmData pid sd ed lim]
    ∧ (getBiorhythmDataFresh u st now pid sd ed lim).1
        = u (.biorhythmData pid sd ed lim) :=
  ⟨rfl, rfl, rfl⟩

/-- C10: when the remote calculation yields the absent result,
`calculate_biorhythm_and_invalidate` deletes nothing — the cache state is
returned exactly as it was — and returns the absent result; moreover any
change to the cache state implies the calculation result was truthy (hence
present). -/
theorem claim_c10_absent_skips_invalidation (u : Request → PyVal)
    (st : CacheState) (now pid days : ℕ) (td : Option ℤ) (notes : String) :
    (u (.calculate pid days td notes) = .null →
      calculateBiorhythmAndInvalidate u st now pid days td notes
        = (.null, st, [.calculate pid days td notes]))
    ∧ ((calculateBiorhythmAndInvalidate u st now pid days td notes).2.1 ≠ st →
        truthy (u (.calculate pid days td notes)) = true
        ∧ u (.calculate pid days td notes) ≠ .null) := by
  constructor
  · intro h
    simp [calculateBiorhythmAndInvalidate, h, truthy]
  · intro hne
    by_cases ht : truthy (u (.calculate pid days td notes)) = true
    · refine ⟨ht, fun hnull => ?_⟩
      rw [hnull] at ht
      simp [truthy] at ht
    · exfalso
      apply hne
      simp [calculateBiorhythmAndInvalidate, ht]

/-- C10 witness: with an upstream that answers absent, the composite returns
absent and the (empty) cache state is untouched. -/
theorem claim_c10_witness :
    calculateBiorhythmAndInvalidate (fun _ => PyVal.null)
        (fun _ => none : CacheState) 0 1 365 none ""
      = (.null, (fun _ => none : CacheState), [.calculate 1 365 none ""]) :=
  (claim_c10_absent_skips_invalidation (fun _ => PyVal.null)
    (fun _ => none : CacheState) 0 1 365 none "").1 rfl

/-- C3 (amended): on each cached read path (people list, single person,
person statistics), a TRUTHY stored unexpired value is returned with no
upstream call; otherwise exactly one upstream call is made, whose result is
passed through, and it is stored under the key with the path's TTL exactly
when it is truthy (in particular an absent result is never cached).  The
original claim's "a value is stored" / "non-Absent" phrasing is refuted for
falsy stored values and falsy results by `claim_c3_counterexample`. -/
theorem claim_c3_read_through_cache (u : Request → PyVal) (st : CacheState)
    (now pid : ℕ) :
    ((truthy (cacheGet st now "api_people_list") = true →
        getPeopleCached u st now = (cacheGet st now "api_people_list", st, []))
      ∧ (truthy (cacheGet st now "api_people_list") = false →
          (getPeopleCached u st now).1 = u .people
          ∧ (getPeopleCached u st now).2.2 = [.people]
          ∧ (truthy (u .people) = true →
              (getPeopleCached u st now).2.1
                = cacheSet st "api_people_list" (u .people) (now + cacheTimeout))
          ∧ (truthy (u .people) = false →
              (getPeopleCached u st now).2.1 = st)))
    ∧ ((truthy (cacheGet st now ("api_person_" ++ toString pid)) = true →
        getPersonCached u st now pid
          = (cacheGet st now ("api_person_" ++ toString pid), st, []))
      ∧ (truthy (cacheGet st now ("api_person_" ++ toString pid)) = false →
          (getPersonCached u st now pid).1 = u (.person pid)
          ∧ (getPersonCached u st now pid).2.2 = [.person pid]
          ∧ (truthy (u (.person pid)) = true →
              (getPersonCached u st now pid).2.1
                = cacheSet st ("api_person_" ++ toString pid) (u (.person pid))
                    (now + cacheTimeout))
          ∧ (truthy (u (.person pid)) = false →
              (getPersonCached u st now pid).2.1 = st)))
    ∧ ((truthy (cacheGet st now ("api_person_stats_" ++ toString pid)) = true →
        getPersonStatisticsCached u st now pid
          = (cacheGet st now ("api_person_stats_" ++ toString pid), st, []))
      ∧ (truthy (cacheGet st now ("api_person_stats_" ++ toString pid)) = false →
          (getPersonStatisticsCached u st now pid).1 = u (.personStats pid)
          ∧ (getPersonStatisticsCached u st now pid).2.2 = [.personStats pid]
          ∧ (truthy (u (.personStats pid)) = true →
              (getPersonStatisticsCached u st now pid).2.1
                = cacheSet st ("api_person_stats_" ++ toString pid)
                    (u (.personStats pid)) (now + cacheTimeout * 2))
          ∧ (truthy (u (.personStats pid)) = false →
              (getPersonStatisticsCached u st now pid).2.1 = st))) := by
  refine ⟨⟨?_, ?_⟩, ⟨?_, ?_⟩, ⟨?_, ?_⟩⟩
  · intro h
    simp [getPeopleCached, h]
  · intro h
    refine ⟨?_, ?_, ?_, ?_⟩ <;>
      first
        | (intro hd; simp [getPeopleCached, h, hd])
        | (by_cases hd : truthy (u .people) = true <;>
            simp [getPeopleCached, h, hd])
  · intro h
    simp [getPersonCached, h]
  · intro h
    refine ⟨?_, ?_, ?_, ?_⟩ <;>
      first
        | (intro hd; simp [getPersonCached, h, hd])
        | (by_cases hd : truthy (u (.person pid)) = true <;>
            simp [getPersonCached, h, hd])
  · intro h
    simp [getPersonStatisticsCached, h]
  · intro h
    refine ⟨?_, ?_, ?_, ?_⟩ <;>
      first
        | (intro hd; simp [getPersonStatisticsCached, h, hd])
        | (by_cases hd : truthy (u (.personStats pid)) = true <;>
            simp [getPersonStatisticsCached, h, hd])

/-- C3 counterexample: an empty JSON object is stored, unexpired, under the
single-person key, yet the read issues an upstream call and does not return
the stored value, because the code tests Python truthiness rather than
presence. -/
theorem claim_c3_counterexample :
    cexStore "api_person_5" = some (.obj [], 10) ∧ (0 : ℕ) < 10
    ∧ cacheGet cexStore 0 "api_person_5" = PyVal.obj []
    ∧ (getPersonCached (fun _ => PyVal.null) cexStore 0 5).2.2
        = [Request.person 5]
    ∧ (getPersonCached (fun _ => PyVal.null) cexStore 0 5).1 ≠ PyVal.obj [] := by
  refine ⟨rfl, by decide, rfl, rfl, ?_⟩
  show PyVal.null ≠ PyVal.obj []
  simp

/-- C3 witness: a truthy unexpired person entry is served from the cache,
with the store untouched and no upstream call. -/
theorem claim_c3_witness :
    truthy (cacheGet wStore 0 "api_person_3") = true
    ∧ getPersonCached (fun _ => PyVal.null) wStore 0 3
        = (cacheGet wStore 0 "api_person_3", wStore, []) :=
  ⟨rfl, ((claim_c3_read_through_cache (fun _ => PyVal.null) wStore 0 3).2.1).1 rfl⟩

/-- On a statistics-cache miss (falsy cached value), the read passes the
upstream answer through and issues exactly that one request. -/
lemma getPersonStatisticsCached_miss (u : Request → PyVal) (st : CacheState)
    (now pid : ℕ)
    (h : truthy (cacheGet st now ("api_person_stats_" ++ toString pid)) = false) :
    (getPersonStatisticsCached u st now pid).1 = u (.personStats pid)
    ∧ (getPersonStatisticsCached u st now pid).2.2 = [.personStats pid] := by
  by_cases hd : truthy (u (.personStats pid)) = true <;>
    simp [getPersonStatisticsCached, h, hd]

/-- C4 (amended): when the remote calculation yields a TRUTHY result,
`calculate_biorhythm_and_invalidate` returns it with the person's
single-person key, statistics key and the people-list key already deleted
(and no other key touched), so a subsequent cached statistics read misses
and performs a fresh upstream fetch.  The original claim, read for every
returned result, is refuted by `claim_c4_counterexample`: a present but
falsy (empty-object) result is returned with no key deleted. -/
theorem claim_c4_invalidate_before_return (u : Request → PyVal)
    (st : CacheState) (now pid days : ℕ) (td : Option ℤ) (notes : String)
    (h : truthy (u (.calculate pid days td notes)) = true) :
    (calculateBiorhythmAndInvalidate u st now pid days td notes).1
        = u (.calculate pid days td notes)
    ∧ (calculateBiorhythmAndInvalidate u st now pid days td notes).2.1
        ("api_person_" ++ toString pid) = none
    ∧ (calculateBiorhythmAndInvalidate u st now pid days td notes).2.1
        ("api_person_stats_" ++ toString pid) = none
    ∧ (calculateBiorhythmAndInvalidate u st now pid days td notes).2.1
        "api_people_list" = none
    ∧ (∀ k, k ≠ "api_person_" ++ toString pid →
        k ≠ "api_person_stats_" ++ toString pid → k ≠ "api_people_list" →
        (calculateBiorhythmAndInvalidate u st now pid days td notes).2.1 k
          = st k)
    ∧ (getPersonStatisticsCached u
        (calculateBiorhythmAndInvalidate u st now pid days td notes).2.1
        now pid).2.2 = [.personStats pid]
    ∧ (getPersonStatisticsCached u
        (calculateBiorhythmAndInvalidate u st now pid days td notes).2.1
        now pid).1 = u (.personStats pid) := by
  have hst : (calculateBiorhythmAndInvalidate u st now pid days td notes).2.1
      = invalidatePersonCache st pid := by
    simp [calculateBiorhythmAndInvalidate, h]
  have hres : (calculateBiorhythmAndInvalidate u st now pid days td notes).1
      = u (.calculate pid days td notes) := by
    simp [calculateBiorhythmAndInvalidate, h]
  have hstats : invalidatePersonCache st pid
      ("api_person_stats_" ++ toString pid) = none := by
    simp [invalidatePersonCache, cacheDeleteMany]
  have hmiss : cacheGet (invalidatePersonCache st pid) now
      ("api_person_stats_" ++ toString pid) = .null := by
    simp [cacheGet, hstats]
  refine ⟨hres, ?_, ?_, ?_, ?_, ?_, ?_⟩
  · rw [hst]
    simp [invalidatePersonCache, cacheDeleteMany]
  · rw [hst]
    exact hstats
  · rw [hst]
    simp [invalidatePersonCache, cacheDeleteMany]
  · intro k h1 h2 h3
    rw [hst]
    simp [invalidatePersonCache, cacheDeleteMany, h1, h2, h3]
  · rw [hst]
    exact (getPersonStatisticsCached_miss u _ now pid (by rw [hmiss]; rfl)).2
  · rw [hst]
    exact (getPersonStatisticsCached_miss u _ now pid (by rw [hmiss]; rfl)).1

/-- C4 counterexample: the remote calculation answers with a present but
EMPTY JSON object; the composite returns that result, yet no cache key is
deleted, and the next cached statistics read returns the pre-call cached
value with no upstream fetch. -/
theorem claim_c4_counterexample :
    (calculateBiorhythmAndInvalidate cexOracle4 cexStore4 0 7 365 none "").1
        = PyVal.obj []
    ∧ (calculateBiorhythmAndInvalidate cexOracle4 cexStore4 0 7 365 none "").2.1
        = cexStore4
    ∧ (getPersonStatisticsCached cexOracle4
        (calculateBiorhythmAndInvalidate cexOracle4 cexStore4 0 7 365 none "").2.1
        0 7).1 = PyVal.obj [("total", .num 5)]
    ∧ (getPersonStatisticsCached cexOracle4
        (calculateBiorhythmAndInvalidate cexOracle4 cexStore4 0 7 365 none "").2.1
        0 7).2.2 = [] :=
  ⟨rfl, rfl, rfl, rfl⟩

/-- C4 witness: a truthy calculation result leads to the statistics key
being deleted and the next statistics read fetching upstream. -/
theorem claim_c4_witness :
    truthy (wOracle4 (Request.calculate 7 365 none "")) = true
    ∧ (calculateBiorhythmAndInvalidate wOracle4 cexStore4 0 7 365 none "").2.1
        ("api_person_stats_" ++ toString 7) = none
    ∧ (getPersonStatisticsCached wOracle4
        (calculateBiorhythmAndInvalidate wOracle4 cexStore4 0 7 365 none "").2.1
        0 7).2.2 = [Request.personStats 7] :=
  ⟨rfl,
   (claim_c4_invalidate_before_return wOracle4 cexStore4 0 7 365 none "" rfl).2.2.1,
   (claim_c4_invalidate_before_return wOracle4 cexStore4 0 7 365 none "" rfl).2.2.2.2.2.1⟩

/-- C5: the critical-day marker dates are sourced only from the original
sparse samples: a date is marked if and only if some original sample at that
date has at least one critical flag set (so synthesized dates, which have no
original sample, are never marked), and the markers are invariant under any
change to the samples' cycle values — no flag is recomputed from the
closed-form cycle values. -/
theorem claim_c5_critical_days_sourced (data : List Sample) (d : ℤ) :
    (d ∈ criticalDates data ↔
      ∃ s ∈ data, s.date = d ∧
        (s.is_physical_critical = true ∨ s.is_emotional_critical = true ∨
         s.is_intellectual_critical = true))
    ∧ (∀ f : Sample → Sample,
        (∀ s, (f s).date = s.date
          ∧ (f s).is_physical_critical = s.is_physical_critical
          ∧ (f s).is_emotional_critical = s.is_emotional_critical
          ∧ (f s).is_intellectual_critical = s.is_intellectual_critical) →
        criticalDates (data.map f) = criticalDates data) := by
  constructor
  · simp only [criticalDates, List.mem_map, List.mem_filter, criticalFlag,
      Bool.or_eq_true]
    constructor
    · rintro ⟨s, ⟨hs, hflag⟩, hd⟩
      exact ⟨s, hs, hd, by tauto⟩
    · rintro ⟨s, hs, hd, hflag⟩
      exact ⟨s, ⟨hs, by tauto⟩, hd⟩
  · intro f hf
    induction data with
    | nil => rfl
    | cons s t ih =>
      have hflag : criticalFlag (f s) = criticalFlag s := by
        unfold criticalFlag
        rw [(hf s).2.1, (hf s).2.2.1, (hf s).2.2.2]
      rw [List.map_cons, criticalDates_cons, criticalDates_cons, hflag,
        (hf s).1, ih]

/-- C5 witness: zeroing every cycle value of a concrete series leaves its
critical-day markers unchanged. -/
theorem claim_c5_witness :
    criticalDates (exCrit.map zeroCycles) = criticalDates exCrit :=
  (claim_c5_critical_days_sourced exCrit 0).2 zeroCycles
    (fun _ => ⟨rfl, rfl, rfl, rfl⟩)

/-- C6: on the empty sparse series both `create_biorhythm_line_chart` and
`create_correlation_chart` return the explicit no-data chart (and, being
total functions, never raise); moreover a successful line chart never
carries a zero-length dense series. -/
theorem claim_c6_empty_input_no_data :
    createBiorhythmLineChart [] = .empty "No biorhythm data available"
    ∧ createCorrelationChart [] = .empty "No biorhythm data available"
    ∧ ∀ (data : List Sample) (dense : List DensePoint) (crit : List ℤ),
        createBiorhythmLineChart data = .chart dense crit → dense ≠ [] := by
  refine ⟨rfl, rfl, ?_⟩
  intro data dense crit hchart
  match data with
  | [] => cases hchart
  | f :: rest =>
    have hd : dense = denseSeries (f :: rest) := by
      cases hchart
      rfl
    subst hd
    intro hcon
    have hlen := congrArg List.length hcon
    rw [denseSeries_length] at hlen
    simp at hlen

/-- C6 witness: a concrete one-point series produces a line chart whose
dense series is non-empty. -/
theorem claim_c6_witness : denseSeries exOne ≠ [] :=
  claim_c6_empty_input_no_data.2.2 exOne (denseSeries exOne)
    (criticalDates exOne) rfl

/-- C8: every entry of the reported correlation matrix is a finite value
(never NaN): the raw Pearson entry is NaN exactly when a variance in its
denominator vanishes — which includes every series of fewer than two points
— and `fillna(0)` replaces that NaN by 0 before the matrix is used. -/
theorem claim_c8_correlation_never_nan (data : List Sample) (i j : Fin 3) :
    (reportedCorr data i j).isSome = true
    ∧ (pearsonNaN data i j = none → reportedCorr data i j = some (0, 0))
    ∧ (data.length < 2 → pearsonNaN data i j = none)
    ∧ (sCross data i i = 0 ∨ sCross data j j = 0 → pearsonNaN data i j = none) := by
  refine ⟨?_, ?_, ?_, ?_⟩
  · simp [reportedCorr, fillnaZero]
  · intro hnan
    simp [reportedCorr, fillnaZero, hnan]
  · intro hlen
    unfold pearsonNaN
    exact if_pos (Or.inl (sCross_self_eq_zero data i (by omega)))
  · intro hzero
    unfold pearsonNaN
    exact if_pos hzero

/-- C8 witness: a one-point series has an undefined raw correlation, and the
reported entry is the (finite) zero value. -/
theorem claim_c8_witness :
    (reportedCorr exOne 0 1).isSome = true
    ∧ pearsonNaN exOne 0 1 = none :=
  ⟨(claim_c8_correlation_never_nan exOne 0 1).1,
   (claim_c8_correlation_never_nan exOne 0 1).2.2.1 (by decide)⟩

/-- C9: the current-phase computation keys off the LAST point of the input
series (not today's date) and reports, per cycle, the phase in degrees
`(days_alive mod period) / period * 360` with periods 23, 28 and 33; in
particular its result depends only on that last point. -/
theorem claim_c9_phase_from_latest (data : List Sample) (h : data ≠ []) :
    cyclePhases data = some
      ((((data.getLast h).days_alive % 23 : ℤ) : ℚ) / 23 * 360,
       (((data.getLast h).days_alive % 28 : ℤ) : ℚ) / 28 * 360,
       (((data.getLast h).days_alive % 33 : ℤ) : ℚ) / 33 * 360)
    ∧ ∀ (data2 : List Sample) (h2 : data2 ≠ []),
        data2.getLast h2 = data.getLast h → cyclePhases data2 = cyclePhases data := by
  refine ⟨cyclePhases_eq_getLast data h, ?_⟩
  intro data2 h2 he
  rw [cyclePhases_eq_getLast data2 h2, cyclePhases_eq_getLast data h, he]

/-- C9 witness: the two-point example reports the phases of its last sample
(`days_alive` 10004): 10004 mod 23 = 22, mod 28 = 8, mod 33 = 5. -/
theorem claim_c9_witness :
    cyclePhases exTwo = some ((22 : ℚ) / 23 * 360, (8 : ℚ) / 28 * 360,
      (5 : ℚ) / 33 * 360) := by
  rw [(claim_c9_phase_from_latest exTwo (by simp [exTwo])).1]
  norm_num [exTwo, List.getLast]

/-- The minimum of a non-empty date column is one of the dates. -/
lemma minDate_mem (f : Sample) (t : List Sample) :
    minDate (f :: t) ∈ datesOf (f :: t) := by
  rcases foldl_min_mem_or (datesOf (f :: t)) f.date with he | hm
  · show (datesOf (f :: t)).foldl min f.date ∈ datesOf (f :: t)
    rw [he]
    exact List.mem_map_of_mem _ (List.mem_cons_self f t)
  · exact hm

/-- The maximum of a non-empty date column is one of the dates. -/
lemma maxDate_mem (f : Sample) (t : List Sample) :
    maxDate (f :: t) ∈ datesOf (f :: t) := by
  rcases foldl_max_mem_or (datesOf (f :: t)) f.date with he | hm
  · show (datesOf (f :: t)).foldl max f.date ∈ datesOf (f :: t)
    rw [he]
    exact List.mem_map_of_mem _ (List.mem_cons_self f t)
  · exact hm

/-- The k-th point of the dense reconstruction, in closed form. -/
lemma denseSeries_get (f : Sample) (t : List Sample) (k : ℕ)
    (hk : k < (denseSeries (f :: t)).length) :
    (denseSeries (f :: t)).get ⟨k, hk⟩
      = ⟨minDate (f :: t) + (k : ℤ),
         cycleValue 23 (daysAliveAt (f :: t) k),
         cycleValue 28 (daysAliveAt (f :: t) k),
         cycleValue 33 (daysAliveAt (f :: t) k)⟩ := by
  simp only [denseSeries, List.get_eq_getElem, List.getElem_map,
    List.getElem_range]
  rfl

/-- Length of the dense reconstruction of the two-point example. -/
lemma denseSeries_exTwo_length : (denseSeries exTwo).length = 5 := by
  rw [show exTwo = (⟨19723, 10000, 0, 0, 0, false, false, false⟩ : Sample)
      :: [⟨19727, 10004, 0, 0, 0, false, false, false⟩] from rfl,
    denseSeries_length]
  decide

/-- Reconstructed `days_alive` on the two-point example: `10000 + k`. -/
lemma daysAliveAt_exTwo (k : ℕ) : daysAliveAt exTwo k = 10000 + (k : ℤ) := by
  rw [show exTwo = (⟨19723, 10000, 0, 0, 0, false, false, false⟩ : Sample)
      :: [⟨19727, 10004, 0, 0, 0, false, false, false⟩] from rfl]
  simp only [daysAliveAt]
  have hmin : minDate ((⟨19723, 10000, 0, 0, 0, false, false, false⟩ : Sample)
      :: [⟨19727, 10004, 0, 0, 0, false, false, false⟩]) = 19723 := by decide
  rw [hmin]
  omega

/-- Length of the dense reconstruction of the one-point example. -/
lemma denseSeries_exOne_length : (denseSeries exOne).length = 1 := by
  rw [show exOne = (⟨19723, 10000, 0, 0, 0, false, false, false⟩ : Sample)
      :: ([] : List Sample) from rfl, denseSeries_length]
  decide

/-- C1: for a non-empty sparse series the dense reconstruction has exactly
one point per calendar day of the inclusive range from the minimum to the
maximum source date; the k-th point sits at day `min + k`, its `days_alive`
is the anchor's (the first raw entry's) `days_alive` plus the whole-day
offset from the anchor's date, its three values are the canonical sines of
`days_alive` over the periods 23, 28 and 33, and each value lies in
[-1, 1].  In particular the specification's two-point example yields exactly
5 points with `days_alive` 10000..10004, and the one-point example yields
exactly one point. -/
theorem claim_c1_dense_reconstruction (data : List Sample) (h : data ≠ []) :
    ((denseSeries data).length = (maxDate data - minDate data).toNat + 1)
    ∧ (minDate data ∈ datesOf data ∧ ∀ x ∈ datesOf data, minDate data ≤ x)
    ∧ (maxDate data ∈ datesOf data ∧ ∀ x ∈ datesOf data, x ≤ maxDate data)
    ∧ (∀ k (hk : k < (denseSeries data).length),
        ((denseSeries data).get ⟨k, hk⟩).date = minDate data + (k : ℤ)
        ∧ daysAliveAt data k
            = (data.head h).days_alive
              + ((minDate data + (k : ℤ)) - (data.head h).date)
        ∧ ((denseSeries data).get ⟨k, hk⟩).physical
            = Real.sin (2 * Real.pi * (daysAliveAt data k : ℤ) / 23)
        ∧ ((denseSeries data).get ⟨k, hk⟩).emotional
            = Real.sin (2 * Real.pi * (daysAliveAt data k : ℤ) / 28)
        ∧ ((denseSeries data).get ⟨k, hk⟩).intellectual
            = Real.sin (2 * Real.pi * (daysAliveAt data k : ℤ) / 33)
        ∧ (-1 ≤ ((denseSeries data).get ⟨k, hk⟩).physical
            ∧ ((denseSeries data).get ⟨k, hk⟩).physical ≤ 1)
        ∧ (-1 ≤ ((denseSeries data).get ⟨k, hk⟩).emotional
            ∧ ((denseSeries data).get ⟨k, hk⟩).emotional ≤ 1)
        ∧ (-1 ≤ ((denseSeries data).get ⟨k, hk⟩).intellectual
            ∧ ((denseSeries data).get ⟨k, hk⟩).intellectual ≤ 1))
    ∧ ((denseSeries exTwo).length = 5
        ∧ (∀ k : ℕ, k < 5 → daysAliveAt exTwo k = 10000 + (k : ℤ))
        ∧ (denseSeries exOne).length = 1) := by
  obtain ⟨f, t, rfl⟩ := List.exists_cons_of_ne_nil h
  refine ⟨denseSeries_length f t,
    ⟨minDate_mem f t, fun x hx => foldl_min_le_of_mem _ _ _ hx⟩,
    ⟨maxDate_mem f t, fun x hx => le_foldl_max_of_mem _ _ _ hx⟩,
    ?_,
    denseSeries_exTwo_length, fun k _ => daysAliveAt_exTwo k,
    denseSeries_exOne_length⟩
  intro k hk
  rw [denseSeries_get f t k hk]
  exact ⟨rfl, rfl, rfl, rfl, rfl,
    ⟨Real.neg_one_le_sin _, Real.sin_le_one _⟩,
    ⟨Real.neg_one_le_sin _, Real.sin_le_one _⟩,
    ⟨Real.neg_one_le_sin _, Real.sin_le_one _⟩⟩

/-- C1 witness: the two-point example is non-empty, and its dense series has
exactly one point per day of the 5-day range. -/
theorem claim_c1_witness :
    exTwo ≠ [] ∧ (denseSeries exTwo).length
      = (maxDate exTwo - minDate exTwo).toNat + 1 :=
  ⟨by simp [exTwo], (claim_c1_dense_reconstruction exTwo (by simp [exTwo])).1⟩

end BiorhythmDash
